import Mathlib

/-!
Dialog user agent (dialog_ua.go).

A shallow embedding of `DialogUA` and its four construction paths
(`NewServerSession`, `ReadInvite`, `NewClientSession`, `WriteInvite`).

Go pointers that may be nil are `Option`s, in-place mutation of the request is
explicit state passing (every operation that mutates its request returns the
request as it is after the call), and a Go runtime panic is an outcome of its
own, distinct from a returned error.
-/

namespace Sipgo

/-! ## Lifecycle state -/

/-- Modelled from the spec: the declaration of `sip.DialogState` is not in src.
Section 4.2 lists the closed set of states in their order of progress:
Initial, Early, Established, Ended. -/
inductive DialogState where
  | Initial
  | Early
  | Established
  | Ended
deriving DecidableEq, Repr

/-- Position of a state in the order of progress of section 4.2; the Go
comparison `state < sip.DialogStateEstablished` compares these. -/
def DialogState.rank : DialogState → Nat
  | .Initial => 0
  | .Early => 1
  | .Established => 2
  | .Ended => 3

instance : LT DialogState := ⟨fun a b => a.rank < b.rank⟩

instance : LE DialogState := ⟨fun a b => a.rank ≤ b.rank⟩

instance (a b : DialogState) : Decidable (a < b) :=
  inferInstanceAs (Decidable (a.rank < b.rank))

instance (a b : DialogState) : Decidable (a ≤ b) :=
  inferInstanceAs (Decidable (a.rank ≤ b.rank))

/-- The constant `sip.DialogStateEstablished`. -/
abbrev DialogStateEstablished : DialogState := DialogState.Established

/-- The constant `sip.DialogStateEnded`. -/
abbrev DialogStateEnded : DialogState := DialogState.Ended

/-! ## Message model -/

/-- Modelled from the spec: the declaration of `sip.HeaderParams` is not in src.
The assignment `Params["tag"] = v` of line 72 makes it a Go map keyed by
strings; a map that exists is its list of entries, and the nil map is `none`
in the header that holds it. -/
structure HeaderParams where
  entries : List (String × String)
deriving DecidableEq, Repr

/-- Map lookup. -/
def HeaderParams.Get (p : HeaderParams) (key : String) : Option String :=
  p.entries.lookup key

/-- Map assignment `p[key] = value`: any entry under `key` is replaced. -/
def HeaderParams.assign (p : HeaderParams) (key value : String) : HeaderParams :=
  ⟨(key, value) :: p.entries.filter (fun e => e.1 != key)⟩

/-- Number of entries stored under `key`. -/
def HeaderParams.count (p : HeaderParams) (key : String) : Nat :=
  (p.entries.filter (fun e => e.1 == key)).length

/-- The To header: `sip.ToHeader`, with its parameter map (nil when `none`). -/
structure ToHeader where
  DisplayName : String
  Address : String
  Params : Option HeaderParams
deriving DecidableEq, Repr

/-- The From header: `sip.FromHeader`. -/
structure FromHeader where
  DisplayName : String
  Address : String
  Params : Option HeaderParams
deriving DecidableEq, Repr

/-- The Contact header: `sip.ContactHeader`. -/
structure ContactHeader where
  DisplayName : String
  Address : String
  Params : Option HeaderParams
deriving DecidableEq, Repr

/-- The CSeq header: `sip.CSeqHeader`. -/
structure CSeqHeader where
  SeqNo : Nat
  MethodName : String
deriving DecidableEq, Repr

/-- A header of a message. -/
inductive Header where
  | CallID (value : String)
  | To (h : ToHeader)
  | From (h : FromHeader)
  | CSeq (h : CSeqHeader)
  | Contact (h : ContactHeader)
  | Other (name value : String)
deriving DecidableEq, Repr

/-- Modelled from the spec: the declaration of `sip.Request` is not in src.
Section 6 gives the message model accessor and mutator access to the identity
header, the two tags, the sequence header and the return-address header; the
request is its method, its recipient, its headers in order and its body. -/
structure Request where
  Method : String
  Recipient : String
  headers : List Header
  body : Option String
deriving DecidableEq, Repr

/-- Modelled from the spec: the declaration of `sip.Response` is not in src. -/
structure Response where
  StatusCode : Nat
  Reason : String
  headers : List Header
  body : Option String
deriving DecidableEq, Repr

/-- Accessor `Contact()`: the first Contact header, nil when there is none. -/
def Request.Contact (r : Request) : Option ContactHeader :=
  r.headers.findSome? (fun h => match h with | .Contact c => some c | _ => none)

/-- Accessor `To()`: the first To header, nil when there is none. -/
def Request.To (r : Request) : Option ToHeader :=
  r.headers.findSome? (fun h => match h with | .To c => some c | _ => none)

/-- Accessor `From()`: the first From header, nil when there is none. -/
def Request.From (r : Request) : Option FromHeader :=
  r.headers.findSome? (fun h => match h with | .From c => some c | _ => none)

/-- Accessor `CSeq()`: the first CSeq header, nil when there is none. -/
def Request.CSeq (r : Request) : Option CSeqHeader :=
  r.headers.findSome? (fun h => match h with | .CSeq c => some c | _ => none)

/-- Accessor `CallID()`: the first Call-ID header, nil when there is none. -/
def Request.CallID (r : Request) : Option String :=
  r.headers.findSome? (fun h => match h with | .CallID c => some c | _ => none)

/-- Mutator `AppendHeader(h)`: the header is added after the others. -/
def Request.AppendHeader (r : Request) (h : Header) : Request :=
  { r with headers := r.headers ++ [h] }

/-- The tag parameter of a To header; reading a nil map finds nothing. -/
def ToHeader.tag (h : ToHeader) : Option String :=
  h.Params.bind (fun p => p.Get "tag")

/-- The tag parameter of a From header; reading a nil map finds nothing. -/
def FromHeader.tag (h : FromHeader) : Option String :=
  h.Params.bind (fun p => p.Get "tag")

/-- The tag of the request's To header, when it has both. -/
def Request.toTag (r : Request) : Option String :=
  r.To.bind ToHeader.tag

/-- The tag of the request's From header, when it has both. -/
def Request.fromTag (r : Request) : Option String :=
  r.From.bind FromHeader.tag

/-- The headers with the first To header replaced: the effect on the message
of a write through the pointer that `To()` returns. -/
def replaceFirstTo (new : ToHeader) : List Header → List Header
  | [] => []
  | .To _ :: rest => .To new :: rest
  | h :: rest => h :: replaceFirstTo new rest

/-- The request after a write through the pointer that `To()` returns. -/
def Request.withTo (r : Request) (new : ToHeader) : Request :=
  { r with headers := replaceFirstTo new r.headers }

/-- Line 72, `inviteReq.To().Params["tag"] = tag`. The result is `none` when the
statement panics: `To()` is nil (nil pointer dereference) or the parameter map
is nil (assignment to an entry of a nil map). -/
def Request.setToTag (r : Request) (tag : String) : Option Request :=
  match r.To with
  | none => none
  | some hdr =>
    match hdr.Params with
    | none => none
    | some p =>
      some (r.withTo { hdr with Params := some (p.assign "tag" tag) })

/-! ## Errors and outcomes -/

/-- The errors the construction paths return. -/
inductive Error where
  /-- The package-level error value `ErrDialogInviteNoContact`. -/
  | ErrDialogInviteNoContact
  /-- Lines 40 and 115: "invite request is required". -/
  | inviteRequestRequired
  /-- Line 70: "generating dialog to tag failed", wrapping the cause. -/
  | generatingToTagFailed (cause : String)
  /-- Line 80: "no CSEQ header present". -/
  | noCSeqHeader
  /-- Line 84: "no Contact header present". -/
  | noContactHeader
  /-- An error of the correlation-key deriver. -/
  | dialogID (msg : String)
  /-- An error of the request-sending collaborator. -/
  | transactionRequest (msg : String)
deriving DecidableEq, Repr

/-- What a call of a Go function with a `(value, error)` result does: it returns
a value, returns an error, or does not return because of a runtime panic. -/
inductive Outcome (α : Type) where
  | ok (value : α)
  | error (e : Error)
  | panic (msg : String)

/-- The call returned a value. -/
def Outcome.isOk {α : Type} : Outcome α → Bool
  | .ok _ => true
  | _ => false

/-- The call returned an error (and so no value). -/
def Outcome.isError {α : Type} : Outcome α → Bool
  | .error _ => true
  | _ => false

/-- The call did not return. -/
def Outcome.isPanic {α : Type} : Outcome α → Bool
  | .panic _ => true
  | _ => false

/-- The returned error, when the call returned one. -/
def Outcome.error? {α : Type} : Outcome α → Option Error
  | .error e => some e
  | _ => none

/-- The returned value, when the call returned one. -/
def Outcome.value? {α : Type} : Outcome α → Option α
  | .ok v => some v
  | _ => none

/-! ## Dialog -/

/-- Go's `uint32`, the type of `DialogSessionParams.CSeq` (line 32): the
naturals below 2^32. -/
abbrev Uint32 := Fin 4294967296

/-- The `uint32` increment: one more, modulo 2^32. -/
def uint32Inc (n : Uint32) : Uint32 :=
  ⟨(n.val + 1) % 4294967296, Nat.mod_lt _ (by decide)⟩

/-- Modelled from the spec: the declaration of `Dialog` is not in src. Section 3
gives it the id, the two anchor messages, the sequence counter and the
lifecycle state; the fields the source names keep their names. The zero value
of the counter is 0 and the zero value of the state is the first state. -/
structure Dialog where
  ID : String := ""
  InviteRequest : Option Request := none
  InviteResponse : Option Response := none
  lastCSeqNo : Uint32 := 0
  state : DialogState := DialogState.Initial
deriving DecidableEq, Repr

/-- Modelled from the spec: `Dialog.Init` is not in src. The construction paths
that call it "construct the Dialog in Initial state" (section 4.3); nothing is
said of the counter, which is left as it is. -/
def Dialog.Init (d : Dialog) : Dialog :=
  { d with state := DialogState.Initial }

/-- Modelled from the spec: `Dialog.InitWithState` is not in src. The
rehydration paths build "a Dialog pinned to the supplied id/state/sequence":
the dialog is initialised and its state set to the supplied one. -/
def Dialog.InitWithState (d : Dialog) (s : DialogState) : Dialog :=
  { d.Init with state := s }

/-- Modelled from the spec: `Dialog.SetCSEQ` is not in src. It pins the sequence
counter to the supplied sequence number, the `uint32` of line 32. -/
def Dialog.SetCSEQ (d : Dialog) (cseq : Uint32) : Dialog :=
  { d with lastCSeqNo := cseq }

/-- Modelled from the spec: `Dialog.LoadState` is not in src. It is the
read-only snapshot of the lifecycle state. -/
def Dialog.LoadState (d : Dialog) : DialogState :=
  d.state

/-- Modelled from the spec: `Dialog.setState` is not in src. It is the write of
the lifecycle state; the comparison that decides whether a termination is
applied is made by the caller (lines 100 to 104). -/
def Dialog.setState (d : Dialog) (s : DialogState) : Dialog :=
  { d with state := s }

/-- Modelled from the spec: the operation that sends a subsequent request is not
in src. Section 4.5: it "atomically reads-and-increments the sequence counter"
and "stamps the outgoing request with that sequence value"; the counter is the
`uint32` that `SetCSEQ` pins, so the increment is modulo 2^32. The result is
the stamped value and the dialog with its counter advanced. -/
def Dialog.nextCSeq (d : Dialog) : Uint32 × Dialog :=
  (uint32Inc d.lastCSeqNo, { d with lastCSeqNo := uint32Inc d.lastCSeqNo })

/-! ## Transactions -/

/-- A termination callback: Go's `func(key string)`, a closure over the session
it acts on, here a function of the key and of the session's dialog. -/
abbrev TerminateFn := String → Dialog → Dialog

/-- Modelled from the spec: the declaration of `sip.ServerTx` is not in src. It
is the live server transaction: its key and the termination callbacks
registered on it. -/
structure ServerTx where
  key : String
  onTerminate : List TerminateFn

/-- Modelled from the spec: `ServerTx.OnTerminate` is not in src. Section 6:
"register a one-shot termination callback". -/
def ServerTx.OnTerminate (stx : ServerTx) (f : TerminateFn) : ServerTx :=
  { stx with onTerminate := stx.onTerminate ++ [f] }

/-- A value of the interface `sip.ServerTransaction`: the concrete
`*sip.ServerTx` that the type assertion of line 98 selects, the
`*NoOpServerTransaction` of line 52, or another implementation of the
interface. -/
inductive ServerTransaction where
  | serverTx (stx : ServerTx)
  | noOp
  | custom (name : String)

/-- Modelled from the spec: the transaction layer is not in src. Section 4.4:
the registered callbacks fire once, when the transaction's lifecycle concludes,
each acting on the session's dialog. A handle on which nothing was registered
leaves the dialog as it is. -/
def ServerTransaction.terminate (tx : ServerTransaction) (d : Dialog) : Dialog :=
  match tx with
  | .serverTx stx => stx.onTerminate.foldl (fun acc f => f stx.key acc) d
  | .noOp => d
  | .custom _ => d

/-- A value of the interface `sip.ClientTransaction`: a live transaction or the
`*NoOpClientTransaction` of line 127. -/
inductive ClientTransaction where
  | clientTx (key : String)
  | noOp
deriving DecidableEq, Repr

/-- The caller's `context.Context`; `cancelled` is its cancellation signal. -/
structure Context where
  cancelled : Bool
deriving DecidableEq, Repr

/-- A `ClientRequestOption`, passed through to the collaborator untouched. -/
abbrev ClientRequestOption := String

/-- The request-sending collaborator `*Client`, whose code is not in src: its
method `TransactionRequest` returns a transaction or an error. -/
structure Client where
  TransactionRequest :
    Context → Request → List ClientRequestOption → Except Error ClientTransaction

/-! ## The user agent and its sessions -/

/-- The struct `DialogUA` (lines 13 to 22). -/
structure DialogUA where
  Client : Client
  ContactHDR : ContactHeader
  RewriteContact : Bool

/-- The struct `DialogSessionParams` (lines 24 to 34); `CSeq` is a `uint32`. -/
structure DialogSessionParams where
  InviteReq : Option Request
  InviteResp : Option Response
  State : DialogState
  CSeq : Uint32
  DialogID : String

/-- The recipient-side wrapper, built at lines 46 and 87. -/
structure DialogServerSession where
  Dialog : Dialog
  inviteTx : ServerTransaction
  ua : DialogUA

/-- The originator-side wrapper, built at lines 121 and 161. -/
structure DialogClientSession where
  Dialog : Dialog
  inviteTx : ClientTransaction
  ua : DialogUA

/-- The key-combining function of the correlation-key deriver, which the spec
leaves open: it is a parameter of the development. -/
abbrev DialogIDMaker := String → String → String → String

/-- Modelled from the spec: `sip.UASReadRequestDialogID` is not in src. Section
4.1: the key is made from the identity header, the local tag and the remote tag
carried by the request, and "computing a key on a request missing the identity
header or missing the session sequence header is a hard error". -/
def UASReadRequestDialogID (mk : DialogIDMaker) (msg : Request) : Except Error String :=
  match msg.CallID with
  | none => .error (.dialogID "missing Call-ID header")
  | some callID =>
    match msg.CSeq with
    | none => .error (.dialogID "missing CSeq header")
    | some _ =>
      match msg.toTag with
      | none => .error (.dialogID "missing tag param in To header")
      | some toTag =>
        match msg.fromTag with
        | none => .error (.dialogID "missing tag param in From header")
        | some fromTag => .ok (mk callID toTag fromTag)

/-- Lines 36 to 59. -/
def DialogUA.NewServerSession (ua : DialogUA) (params : DialogSessionParams) :
    Except Error DialogServerSession :=
  match params.InviteReq with
  | none => .error .inviteRequestRequired
  | some req =>
    let d : Dialog :=
      { ID := params.DialogID, InviteRequest := some req, InviteResponse := params.InviteResp }
    let d := d.InitWithState params.State
    let d := d.SetCSEQ params.CSeq
    .ok { Dialog := d, inviteTx := .noOp, ua := ua }

/-- Lines 99 to 105: the callback that `ReadInvite` registers. -/
def terminationCallback : TerminateFn := fun _key dtx =>
  let state := dtx.LoadState
  if state < DialogStateEstablished then
    dtx.setState DialogStateEnded
  else
    dtx

/-- What a call of `ReadInvite` leaves behind: the request and the transaction
as they are after the call, and what the call returned. -/
structure ReadInviteResult where
  req : Request
  tx : ServerTransaction
  out : Outcome DialogServerSession

/-- Lines 61 to 109. `newV4` is the result of the token generator `uuid.NewV4()`
(the generated token or the cause of its failure). -/
def DialogUA.ReadInvite (c : DialogUA) (mk : DialogIDMaker) (newV4 : Except String String)
    (inviteReq : Request) (tx : ServerTransaction) : ReadInviteResult :=
  match inviteReq.Contact with
  | none => ⟨inviteReq, tx, .error .ErrDialogInviteNoContact⟩
  | some _ =>
    match newV4 with
    | .error cause => ⟨inviteReq, tx, .error (.generatingToTagFailed cause)⟩
    | .ok uuid =>
      match inviteReq.setToTag uuid with
      | none => ⟨inviteReq, tx, .panic "invalid memory address or nil map"⟩
      | some req =>
        match UASReadRequestDialogID mk req with
        | .error err => ⟨req, tx, .error err⟩
        | .ok id =>
          if req.CSeq = none then
            ⟨req, tx, .error .noCSeqHeader⟩
          else if req.Contact = none then
            ⟨req, tx, .error .noContactHeader⟩
          else
            let d : Dialog := { ID := id, InviteRequest := some req }
            let d := d.Init
            match tx with
            | .serverTx stx =>
              let tx1 := ServerTransaction.serverTx (stx.OnTerminate terminationCallback)
              ⟨req, tx1, .ok { Dialog := d, inviteTx := tx1, ua := c }⟩
            | other => ⟨req, other, .ok { Dialog := d, inviteTx := other, ua := c }⟩

/-- Lines 111 to 134. -/
def DialogUA.NewClientSession (ua : DialogUA) (params : DialogSessionParams) :
    Except Error DialogClientSession :=
  match params.InviteReq with
  | none => .error .inviteRequestRequired
  | some req =>
    let d : Dialog :=
      { ID := params.DialogID, InviteRequest := some req, InviteResponse := params.InviteResp }
    let d := d.InitWithState params.State
    let d := d.SetCSEQ params.CSeq
    .ok { Dialog := d, inviteTx := .noOp, ua := ua }

/-- What a call of `WriteInvite` leaves behind: the request that was handed to
`Client.TransactionRequest` (the caller's request after the call), and what the
call returned. -/
structure WriteInviteResult where
  sent : Request
  out : Except Error DialogClientSession

/-- Lines 148 to 171. -/
def DialogUA.WriteInvite (c : DialogUA) (ctx : Context) (inviteReq : Request)
    (options : List ClientRequestOption) : WriteInviteResult :=
  let cli := c.Client
  let req :=
    if inviteReq.Contact = none then inviteReq.AppendHeader (.Contact c.ContactHDR)
    else inviteReq
  match cli.TransactionRequest ctx req options with
  | .error err => ⟨req, .error err⟩
  | .ok tx =>
    let d : Dialog := { InviteRequest := some req }
    let d := d.Init
    ⟨req, .ok { Dialog := d, ua := c, inviteTx := tx }⟩

/-! ## Sample values -/

/-- A return-address header. -/
def sampleContact : ContactHeader :=
  { DisplayName := "", Address := "sip:bob@example.com", Params := none }

/-- A collaborator that hands out a live transaction. -/
def acceptingClient : Client :=
  ⟨fun _ _ _ => .ok (.clientTx "z9hG4bK.1")⟩

/-- A collaborator that fails, as on cancellation before a transaction exists. -/
def failingClient : Client :=
  ⟨fun _ _ _ => .error (.transactionRequest "context canceled")⟩

/-- A user agent whose collaborator hands out a transaction. -/
def sampleUA : DialogUA :=
  { Client := acceptingClient, ContactHDR := sampleContact, RewriteContact := false }

/-- A user agent whose collaborator fails. -/
def failingUA : DialogUA :=
  { Client := failingClient, ContactHDR := sampleContact, RewriteContact := false }

/-- A key-combining function: the three components joined by two underscores. -/
def sampleMaker : DialogIDMaker :=
  fun callID localTag remoteTag => callID ++ "__" ++ localTag ++ "__" ++ remoteTag

/-- A From header with tag "f1". -/
def sampleFrom : Header :=
  .From { DisplayName := "", Address := "sip:alice@example.com",
          Params := some ⟨[("tag", "f1")]⟩ }

/-- A To header with an empty parameter map. -/
def sampleTo : Header :=
  .To { DisplayName := "", Address := "sip:bob@example.com", Params := some ⟨[]⟩ }

/-- A To header with a nil parameter map. -/
def nilParamsTo : Header :=
  .To { DisplayName := "", Address := "sip:bob@example.com", Params := none }

/-- An initiating request with all five headers. -/
def validInvite : Request :=
  { Method := "INVITE", Recipient := "sip:bob@example.com", body := none,
    headers := [.CallID "c1", sampleFrom, sampleTo, .CSeq ⟨1, "INVITE"⟩,
                .Contact sampleContact] }

/-- An initiating request with a Contact header and no To header. -/
def inviteNoTo : Request :=
  { validInvite with
    headers := [.CallID "c1", sampleFrom, .CSeq ⟨1, "INVITE"⟩, .Contact sampleContact] }

/-- An initiating request with neither a CSeq nor a To header. -/
def inviteNoCSeqNoTo : Request :=
  { validInvite with headers := [.CallID "c1", sampleFrom, .Contact sampleContact] }

/-- An initiating request whose To header has a nil parameter map. -/
def inviteNilToParams : Request :=
  { validInvite with
    headers := [.CallID "c1", sampleFrom, nilParamsTo, .CSeq ⟨1, "INVITE"⟩,
                .Contact sampleContact] }

/-- An initiating request with no Call-ID header. -/
def inviteNoCallID : Request :=
  { validInvite with
    headers := [sampleFrom, sampleTo, .CSeq ⟨1, "INVITE"⟩, .Contact sampleContact] }

/-- An initiating request with no Contact header. -/
def inviteNoContact : Request :=
  { validInvite with
    headers := [.CallID "c1", sampleFrom, sampleTo, .CSeq ⟨1, "INVITE"⟩] }

/-- A live server transaction with nothing registered on it. -/
def freshServerTx : ServerTransaction :=
  .serverTx { key := "z9hG4bK.7", onTerminate := [] }

/-- A handle of another implementation of the interface. -/
def customTx : ServerTransaction :=
  .custom "wrapped transaction"

/-- The session that `ReadInvite` returns for `validInvite`, token "t1" and
`freshServerTx`. -/
def acceptedSession : DialogServerSession :=
  { Dialog := { ID := "c1__t1__f1", InviteRequest := validInvite.setToTag "t1" },
    inviteTx := .serverTx { key := "z9hG4bK.7", onTerminate := [terminationCallback] },
    ua := sampleUA }

/-- The session that `ReadInvite` returns for `validInvite`, token "t1" and
`customTx`. -/
def acceptedCustomSession : DialogServerSession :=
  { Dialog := { ID := "c1__t1__f1", InviteRequest := validInvite.setToTag "t1" },
    inviteTx := customTx,
    ua := sampleUA }

/-- Rehydration parameters at the last sequence number of a `uint32`. -/
def lastSeqParams : DialogSessionParams :=
  { InviteReq := some validInvite, InviteResp := none,
    State := DialogState.Established, CSeq := 4294967295, DialogID := "abc" }

/-- Rehydration parameters: id "abc", state Established, sequence number 4. -/
def sampleParams : DialogSessionParams :=
  { InviteReq := some validInvite, InviteResp := none,
    State := DialogState.Established, CSeq := 4, DialogID := "abc" }

/-! ## Lemmas on the message model -/

theorem DialogState.lt_def (a b : DialogState) : a < b ↔ a.rank < b.rank := Iff.rfl

theorem DialogState.le_def (a b : DialogState) : a ≤ b ↔ a.rank ≤ b.rank := Iff.rfl

theorem Request.Contact_AppendHeader (r : Request) (h : ContactHeader)
    (hr : r.Contact = none) : (r.AppendHeader (.Contact h)).Contact = some h := by
  unfold Request.Contact at hr ⊢
  simp [Request.AppendHeader, List.findSome?_append, hr]


theorem HeaderParams.Get_assign (p : HeaderParams) (key value : String) :
    (p.assign key value).Get key = some value := by
  simp [HeaderParams.assign, HeaderParams.Get, List.lookup]

theorem HeaderParams.count_assign (p : HeaderParams) (key value : String) :
    (p.assign key value).count key = 1 := by
  simp [HeaderParams.assign, HeaderParams.count, List.filter_cons, List.filter_filter]

theorem findSome_replaceFirstTo_of_skip {β : Type} (f : Header → Option β)
    (hf : ∀ x, f (.To x) = none) (new : ToHeader) (hs : List Header) :
    (replaceFirstTo new hs).findSome? f = hs.findSome? f := by
  induction hs with
  | nil => rfl
  | cons h rest ih =>
    cases h <;> simp [replaceFirstTo, List.findSome?, hf, ih]

theorem findSome_replaceFirstTo_to (new old : ToHeader) (hs : List Header)
    (h : hs.findSome? (fun h => match h with | .To c => some c | _ => none) = some old) :
    (replaceFirstTo new hs).findSome? (fun h => match h with | .To c => some c | _ => none)
      = some new := by
  induction hs with
  | nil => simp at h
  | cons x rest ih =>
    cases x <;> simp_all [replaceFirstTo, List.findSome?]

/-- What the write of line 72 does to a request whose To header has a
parameter map: the first To header gets the tag, every other accessor reads
what it read before. -/
theorem Request.setToTag_some (r : Request) (tag : String) (hdr : ToHeader) (p : HeaderParams)
    (hTo : r.To = some hdr) (hP : hdr.Params = some p) :
    ∃ r1, r.setToTag tag = some r1 ∧
      r1.To = some { hdr with Params := some (p.assign "tag" tag) } ∧
      r1.toTag = some tag ∧
      r1.Contact = r.Contact ∧ r1.CSeq = r.CSeq ∧ r1.CallID = r.CallID ∧
      r1.From = r.From ∧ r1.fromTag = r.fromTag ∧
      r1.Method = r.Method ∧ r1.Recipient = r.Recipient ∧ r1.body = r.body := by
  have hTo1 : (r.withTo { hdr with Params := some (p.assign "tag" tag) }).To
      = some { hdr with Params := some (p.assign "tag" tag) } := by
    unfold Request.To at hTo ⊢
    exact findSome_replaceFirstTo_to _ hdr _ hTo
  refine ⟨_, ?_, hTo1, ?_, ?_, ?_, ?_, ?_, ?_, rfl, rfl, rfl⟩
  · simp [Request.setToTag, hTo, hP]
  · simp [Request.toTag, hTo1, ToHeader.tag, HeaderParams.Get_assign]
  · exact findSome_replaceFirstTo_of_skip _ (fun _ => rfl) _ _
  · exact findSome_replaceFirstTo_of_skip _ (fun _ => rfl) _ _
  · exact findSome_replaceFirstTo_of_skip _ (fun _ => rfl) _ _
  · exact findSome_replaceFirstTo_of_skip _ (fun _ => rfl) _ _
  · have hF : (r.withTo { hdr with Params := some (p.assign "tag" tag) }).From
        = r.From := findSome_replaceFirstTo_of_skip _ (fun _ => rfl) _ _
    simp [Request.fromTag, hF]

/-- The write of line 72 panics exactly on a request with no To header or with
a To header whose parameter map is nil. -/
theorem Request.setToTag_eq_none_iff (r : Request) (tag : String) :
    r.setToTag tag = none ↔ (r.To = none ∨ ∃ hdr, r.To = some hdr ∧ hdr.Params = none) := by
  unfold Request.setToTag
  cases hTo : r.To with
  | none => simp
  | some hdr =>
    cases hP : hdr.Params with
    | none => simp [hP]
    | some p => simp [hP]

/-! ## Lemmas on ReadInvite -/

theorem ReadInvite_of_no_contact (c : DialogUA) (mk : DialogIDMaker)
    (newV4 : Except String String) (req : Request) (tx : ServerTransaction)
    (h : req.Contact = none) :
    c.ReadInvite mk newV4 req tx = ⟨req, tx, .error .ErrDialogInviteNoContact⟩ := by
  simp only [DialogUA.ReadInvite, h]

theorem ReadInvite_of_token_failure (c : DialogUA) (mk : DialogIDMaker) (cause : String)
    (req : Request) (tx : ServerTransaction) (contact : ContactHeader)
    (h : req.Contact = some contact) :
    c.ReadInvite mk (.error cause) req tx
      = ⟨req, tx, .error (.generatingToTagFailed cause)⟩ := by
  simp only [DialogUA.ReadInvite, h]

theorem ReadInvite_of_setToTag_none (c : DialogUA) (mk : DialogIDMaker) (t : String)
    (req : Request) (tx : ServerTransaction) (contact : ContactHeader)
    (h : req.Contact = some contact) (hSet : req.setToTag t = none) :
    c.ReadInvite mk (.ok t) req tx
      = ⟨req, tx, .panic "invalid memory address or nil map"⟩ := by
  simp only [DialogUA.ReadInvite, h, hSet]

/-- The key deriver on a request that has all it reads. -/
theorem UASReadRequestDialogID_ok (mk : DialogIDMaker) (msg : Request)
    (callID toTag fromTag : String) (cseq : CSeqHeader)
    (hCall : msg.CallID = some callID) (hCSeq : msg.CSeq = some cseq)
    (hTo : msg.toTag = some toTag) (hFrom : msg.fromTag = some fromTag) :
    UASReadRequestDialogID mk msg = .ok (mk callID toTag fromTag) := by
  simp only [UASReadRequestDialogID, hCall, hCSeq, hTo, hFrom]

/-- The key deriver fails on a request with no Call-ID or no CSeq header. -/
theorem UASReadRequestDialogID_error (mk : DialogIDMaker) (msg : Request)
    (h : msg.CallID = none ∨ msg.CSeq = none) :
    ∃ e, UASReadRequestDialogID mk msg = .error e := by
  unfold UASReadRequestDialogID
  cases hCall : msg.CallID with
  | none => exact ⟨_, rfl⟩
  | some callID =>
    cases hCSeq : msg.CSeq with
    | none => exact ⟨_, rfl⟩
    | some cseq => simp [hCall, hCSeq] at h

/-- On a request whose To header has a parameter map and that has all five
headers, `ReadInvite` succeeds: the tag is written, replacing any earlier one,
the session is keyed by Call-ID, the new tag and the From tag, holds the
request and no response, and is in state Initial. -/
theorem ReadInvite_ok_of_valid (c : DialogUA) (mk : DialogIDMaker) (t : String)
    (req : Request) (tx : ServerTransaction) (callID fromTag : String) (hdr : ToHeader)
    (p : HeaderParams) (cseq : CSeqHeader) (contact : ContactHeader)
    (hCall : req.CallID = some callID) (hFrom : req.fromTag = some fromTag)
    (hTo : req.To = some hdr) (hP : hdr.Params = some p)
    (hCSeq : req.CSeq = some cseq) (hContact : req.Contact = some contact) :
    ∃ s, (c.ReadInvite mk (.ok t) req tx).out = .ok s ∧
      (c.ReadInvite mk (.ok t) req tx).req.To
        = some { hdr with Params := some (p.assign "tag" t) } ∧
      (c.ReadInvite mk (.ok t) req tx).req.toTag = some t ∧
      (p.assign "tag" t).count "tag" = 1 ∧
      s.Dialog.ID = mk callID t fromTag ∧
      s.Dialog.InviteRequest = some (c.ReadInvite mk (.ok t) req tx).req ∧
      s.Dialog.InviteResponse = none ∧
      s.Dialog.LoadState = DialogState.Initial := by
  obtain ⟨r1, hSet, hTo1, hTag1, hC1, hS1, hI1, _, hF1, _, _, _⟩ :=
    Request.setToTag_some req t hdr p hTo hP
  have hKey : UASReadRequestDialogID mk r1 = .ok (mk callID t fromTag) :=
    UASReadRequestDialogID_ok mk r1 callID t fromTag cseq (hI1.trans hCall)
      (hS1.trans hCSeq) hTag1 (hF1.trans hFrom)
  have hS1' : r1.CSeq = some cseq := hS1.trans hCSeq
  have hC1' : r1.Contact = some contact := hC1.trans hContact
  cases tx <;>
    simp [DialogUA.ReadInvite, hContact, hSet, hKey, hS1', hC1', hTo1, hTag1,
      HeaderParams.count_assign, Dialog.Init, Dialog.LoadState]

/-- On a request whose To header has a parameter map, `ReadInvite` returns an
error whenever the Call-ID, the CSeq or the Contact header is missing. -/
theorem ReadInvite_error_of_missing (c : DialogUA) (mk : DialogIDMaker)
    (newV4 : Except String String) (req : Request) (tx : ServerTransaction)
    (hdr : ToHeader) (p : HeaderParams)
    (hTo : req.To = some hdr) (hP : hdr.Params = some p)
    (h : req.CallID = none ∨ req.CSeq = none ∨ req.Contact = none) :
    ∃ e, (c.ReadInvite mk newV4 req tx).out = .error e := by
  cases hContact : req.Contact with
  | none => exact ⟨_, by rw [ReadInvite_of_no_contact c mk newV4 req tx hContact]⟩
  | some contact =>
    cases newV4 with
    | error cause =>
      exact ⟨_, by rw [ReadInvite_of_token_failure c mk cause req tx contact hContact]⟩
    | ok t =>
      obtain ⟨r1, hSet, _, _, _, hS1, hI1, _, _, _, _, _⟩ :=
        Request.setToTag_some req t hdr p hTo hP
      have hMiss : r1.CallID = none ∨ r1.CSeq = none := by
        rcases h with h | h | h
        · exact Or.inl (hI1.trans h)
        · exact Or.inr (hS1.trans h)
        · simp [hContact] at h
      obtain ⟨e, he⟩ := UASReadRequestDialogID_error mk r1 hMiss
      exact ⟨e, by simp only [DialogUA.ReadInvite, hContact, hSet, he]⟩

/-- The five ways a call of `ReadInvite` goes: no Contact header, no token, a
panic at line 72, an error after the tag was written, or a session (with the
callback added to a `*sip.ServerTx` and to no other handle). -/
theorem ReadInvite_paths (c : DialogUA) (mk : DialogIDMaker) (newV4 : Except String String)
    (req : Request) (tx : ServerTransaction) :
    (req.Contact = none ∧
      c.ReadInvite mk newV4 req tx = ⟨req, tx, .error .ErrDialogInviteNoContact⟩) ∨
    (req.Contact ≠ none ∧ ∃ cause, newV4 = .error cause ∧
      c.ReadInvite mk newV4 req tx = ⟨req, tx, .error (.generatingToTagFailed cause)⟩) ∨
    (req.Contact ≠ none ∧ ∃ t, newV4 = .ok t ∧ req.setToTag t = none ∧
      c.ReadInvite mk newV4 req tx = ⟨req, tx, .panic "invalid memory address or nil map"⟩) ∨
    (req.Contact ≠ none ∧ ∃ t r1 e, newV4 = .ok t ∧ req.setToTag t = some r1 ∧
      c.ReadInvite mk newV4 req tx = ⟨r1, tx, .error e⟩) ∨
    (req.Contact ≠ none ∧ ∃ t r1 id, newV4 = .ok t ∧ req.setToTag t = some r1 ∧
      UASReadRequestDialogID mk r1 = .ok id ∧
      ((∃ stx, tx = .serverTx stx ∧ c.ReadInvite mk newV4 req tx =
          ⟨r1, .serverTx (stx.OnTerminate terminationCallback),
            .ok { Dialog := { ID := id, InviteRequest := some r1 },
                  inviteTx := .serverTx (stx.OnTerminate terminationCallback), ua := c }⟩) ∨
       ((∀ stx, tx ≠ .serverTx stx) ∧ c.ReadInvite mk newV4 req tx =
          ⟨r1, tx, .ok { Dialog := { ID := id, InviteRequest := some r1 },
                         inviteTx := tx, ua := c }⟩))) := by
  cases hContact : req.Contact with
  | none => exact Or.inl ⟨rfl, ReadInvite_of_no_contact c mk newV4 req tx hContact⟩
  | some contact =>
    have hne : some contact ≠ none := by simp
    cases newV4 with
    | error cause =>
      exact Or.inr (Or.inl ⟨hne, cause, rfl,
        ReadInvite_of_token_failure c mk cause req tx contact hContact⟩)
    | ok t =>
      cases hSet : req.setToTag t with
      | none =>
        exact Or.inr (Or.inr (Or.inl ⟨hne, t, rfl, hSet,
          ReadInvite_of_setToTag_none c mk t req tx contact hContact hSet⟩))
      | some r1 =>
        cases hKey : UASReadRequestDialogID mk r1 with
        | error e =>
          refine Or.inr (Or.inr (Or.inr (Or.inl ⟨hne, t, r1, e, rfl, hSet, ?_⟩)))
          simp only [DialogUA.ReadInvite, hContact, hSet, hKey]
        | ok id =>
          cases hS1 : r1.CSeq with
          | none =>
            refine Or.inr (Or.inr (Or.inr (Or.inl ⟨hne, t, r1, .noCSeqHeader, rfl, hSet, ?_⟩)))
            simp [DialogUA.ReadInvite, hContact, hSet, hKey, hS1]
          | some cseq =>
            cases hC1 : r1.Contact with
            | none =>
              refine Or.inr (Or.inr (Or.inr (Or.inl
                ⟨hne, t, r1, .noContactHeader, rfl, hSet, ?_⟩)))
              simp [DialogUA.ReadInvite, hContact, hSet, hKey, hS1, hC1]
            | some c1 =>
              refine Or.inr (Or.inr (Or.inr (Or.inr ⟨hne, t, r1, id, rfl, hSet, hKey, ?_⟩)))
              cases tx with
              | serverTx stx =>
                refine Or.inl ⟨stx, rfl, ?_⟩
                simp [DialogUA.ReadInvite, hContact, hSet, hKey, hS1, hC1, Dialog.Init]
              | noOp =>
                refine Or.inr ⟨by simp, ?_⟩
                simp [DialogUA.ReadInvite, hContact, hSet, hKey, hS1, hC1, Dialog.Init]
              | custom name =>
                refine Or.inr ⟨by simp, ?_⟩
                simp [DialogUA.ReadInvite, hContact, hSet, hKey, hS1, hC1, Dialog.Init]

/-- The tag is in the To header after a write of line 72 that did not panic. -/
theorem Request.toTag_of_setToTag (r r1 : Request) (tag : String)
    (h : r.setToTag tag = some r1) : r1.toTag = some tag := by
  cases hTo : r.To with
  | none => simp [Request.setToTag, hTo] at h
  | some hdr =>
    cases hP : hdr.Params with
    | none => simp [Request.setToTag, hTo, hP] at h
    | some p =>
      obtain ⟨r2, hSet, _, hTag, _⟩ := Request.setToTag_some r tag hdr p hTo hP
      rw [h] at hSet
      cases hSet
      exact hTag

/-- A write of line 72 that did not panic leaves the other headers as read. -/
theorem Request.setToTag_preserves (r r1 : Request) (tag : String)
    (h : r.setToTag tag = some r1) :
    r1.CallID = r.CallID ∧ r1.CSeq = r.CSeq ∧ r1.Contact = r.Contact ∧ r1.From = r.From := by
  cases hTo : r.To with
  | none => simp [Request.setToTag, hTo] at h
  | some hdr =>
    cases hP : hdr.Params with
    | none => simp [Request.setToTag, hTo, hP] at h
    | some p =>
      obtain ⟨r2, hSet, _, _, hC, hS, hI, hF, _⟩ := Request.setToTag_some r tag hdr p hTo hP
      rw [h] at hSet
      cases hSet
      exact ⟨hI, hS, hC, hF⟩

/-- No session is ever produced for a request that lacks the Call-ID, the CSeq
or the Contact header, whatever its other headers are. -/
theorem ReadInvite_no_session_of_missing (c : DialogUA) (mk : DialogIDMaker)
    (newV4 : Except String String) (req : Request) (tx : ServerTransaction)
    (h : req.CallID = none ∨ req.CSeq = none ∨ req.Contact = none) :
    (c.ReadInvite mk newV4 req tx).out.isOk = false := by
  rcases ReadInvite_paths c mk newV4 req tx with
    ⟨_, hR⟩ | ⟨_, _, _, hR⟩ | ⟨_, _, _, _, hR⟩ | ⟨_, _, _, _, _, _, hR⟩ |
    ⟨hC, t, r1, id, _, hSet, hKey, _⟩
  · rw [hR]; rfl
  · rw [hR]; rfl
  · rw [hR]; rfl
  · rw [hR]; rfl
  · obtain ⟨hI, hS, _, _⟩ := Request.setToTag_preserves req r1 t hSet
    have hMiss : r1.CallID = none ∨ r1.CSeq = none := by
      rcases h with h | h | h
      · exact Or.inl (hI.trans h)
      · exact Or.inr (hS.trans h)
      · exact absurd h hC
    obtain ⟨e, he⟩ := UASReadRequestDialogID_error mk r1 hMiss
    rw [he] at hKey
    cases hKey

/-- The inputs on which `ReadInvite` panics: the Contact header is present, the
token was generated, and the To header is absent or has a nil parameter map. -/
theorem ReadInvite_panic_iff (c : DialogUA) (mk : DialogIDMaker)
    (newV4 : Except String String) (req : Request) (tx : ServerTransaction) :
    (c.ReadInvite mk newV4 req tx).out.isPanic = true ↔
      (req.Contact ≠ none ∧ (∃ t, newV4 = .ok t) ∧
        (req.To = none ∨ ∃ hdr, req.To = some hdr ∧ hdr.Params = none)) := by
  rcases ReadInvite_paths c mk newV4 req tx with
    ⟨hC, hR⟩ | ⟨_, cause, hV, hR⟩ | ⟨hC, t, hV, hSet, hR⟩ | ⟨_, t, r1, e1, hV, hSet, hR⟩ |
    ⟨_, t, r1, id, hV, hSet, _, hR⟩
  · simp [hR, hC, Outcome.isPanic]
  · rw [hR]
    simp [hV, Outcome.isPanic]
  · have hTo := (Request.setToTag_eq_none_iff req t).mp hSet
    simp only [hR, Outcome.isPanic, true_iff]
    exact ⟨hC, ⟨t, hV⟩, hTo⟩
  · have hNo : ¬ (req.To = none ∨ ∃ hdr, req.To = some hdr ∧ hdr.Params = none) := by
      intro hTo
      rw [(Request.setToTag_eq_none_iff req t).mpr hTo] at hSet
      cases hSet
    simp only [hR, Outcome.isPanic]
    constructor
    · intro h; cases h
    · intro h; exact absurd h.2.2 hNo
  · have hNo : ¬ (req.To = none ∨ ∃ hdr, req.To = some hdr ∧ hdr.Params = none) := by
      intro hTo
      rw [(Request.setToTag_eq_none_iff req t).mpr hTo] at hSet
      cases hSet
    rcases hR with ⟨_, _, hR⟩ | ⟨_, hR⟩
    · simp only [hR, Outcome.isPanic]
      constructor
      · intro h; cases h
      · intro h; exact absurd h.2.2 hNo
    · simp only [hR, Outcome.isPanic]
      constructor
      · intro h; cases h
      · intro h; exact absurd h.2.2 hNo

/-- The request that `WriteInvite` hands to the collaborator (lines 151 to 154). -/
theorem WriteInvite_sent (c : DialogUA) (ctx : Context) (req : Request)
    (opts : List ClientRequestOption) :
    (c.WriteInvite ctx req opts).sent =
      if req.Contact = none then req.AppendHeader (.Contact c.ContactHDR) else req := by
  unfold DialogUA.WriteInvite
  simp only []
  split <;> rfl

/-- What `WriteInvite` returns, from what the collaborator returned for the
request handed to it (lines 156 to 170). -/
theorem WriteInvite_out (c : DialogUA) (ctx : Context) (req : Request)
    (opts : List ClientRequestOption) :
    (c.WriteInvite ctx req opts).out =
      match c.Client.TransactionRequest ctx (c.WriteInvite ctx req opts).sent opts with
      | .error err => .error err
      | .ok tx => .ok { Dialog := { InviteRequest := some (c.WriteInvite ctx req opts).sent },
                        ua := c, inviteTx := tx } := by
  rw [WriteInvite_sent]
  unfold DialogUA.WriteInvite
  simp only []
  split <;> simp_all [Dialog.Init]

/-! ## The claims -/

/-- C1, at the input where the code departs from it: a request with a Contact
header and neither a CSeq nor a To header. `ReadInvite` does not return an
error there; line 72 dereferences the absent To header and the call panics. -/
theorem ReadInvite_missing_cseq_and_to_panics :
    inviteNoCSeqNoTo.CSeq = none ∧ inviteNoCSeqNoTo.To = none ∧
    inviteNoCSeqNoTo.Contact ≠ none ∧
    (sampleUA.ReadInvite sampleMaker (.ok "t1") inviteNoCSeqNoTo freshServerTx).out.isError
      = false ∧
    (sampleUA.ReadInvite sampleMaker (.ok "t1") inviteNoCSeqNoTo freshServerTx).out.isPanic
      = true := by
  decide

/-- C2: the termination callback that `ReadInvite` registers moves every state
earlier than Established to Ended and leaves the session exactly as it was in
every state that is Established or later. -/
theorem terminationCallback_state (key : String) (d : Dialog) :
    (d.LoadState < DialogStateEstablished →
      (terminationCallback key d).LoadState = DialogStateEnded) ∧
    (DialogStateEstablished ≤ d.LoadState → terminationCallback key d = d) := by
  obtain ⟨id, rq, rs, n, st⟩ := d
  cases st <;>
    simp [terminationCallback, Dialog.LoadState, Dialog.setState, DialogState.lt_def,
      DialogState.le_def, DialogState.rank]

/-- The callback of C2 on the four states, session by session. -/
theorem terminationCallback_state_witness :
    (terminationCallback "k" { state := .Initial }).LoadState = .Ended ∧
    (terminationCallback "k" { state := .Early }).LoadState = .Ended ∧
    (terminationCallback "k" { state := .Established }).LoadState = .Established ∧
    (terminationCallback "k" { state := .Ended }).LoadState = .Ended :=
  ⟨(terminationCallback_state "k" { state := .Initial }).1 (by decide),
   (terminationCallback_state "k" { state := .Early }).1 (by decide),
   by rw [(terminationCallback_state "k" { state := .Established }).2 (by decide)]; rfl,
   by rw [(terminationCallback_state "k" { state := .Ended }).2 (by decide)]; rfl⟩

/-- C3, at the input where the code departs from it: a request that carries
Call-ID, From tag, To, CSeq and Contact, whose To header has a nil parameter
map. `ReadInvite` does not succeed there; the assignment of line 72 writes to
the nil map and the call panics, with no tag written. -/
theorem ReadInvite_nil_to_params_panics :
    inviteNilToParams.CallID = some "c1" ∧ inviteNilToParams.fromTag = some "f1" ∧
    inviteNilToParams.To ≠ none ∧ inviteNilToParams.CSeq ≠ none ∧
    inviteNilToParams.Contact ≠ none ∧
    (sampleUA.ReadInvite sampleMaker (.ok "t1") inviteNilToParams freshServerTx).out.isOk
      = false ∧
    (sampleUA.ReadInvite sampleMaker (.ok "t1") inviteNilToParams freshServerTx).out.isPanic
      = true ∧
    (sampleUA.ReadInvite sampleMaker (.ok "t1") inviteNilToParams freshServerTx).req.toTag
      = none := by
  decide

/-- C4 as stated fails: rehydrated at sequence number 4294967295, the last
value of the `uint32` of line 32, the wrapper has that counter and its next
subsequent request is stamped 0, not 4294967296. -/
theorem rehydration_next_wraps :
    (∃ w, sampleUA.NewServerSession lastSeqParams = .ok w ∧
      w.Dialog.lastCSeqNo.val = 4294967295 ∧ w.Dialog.nextCSeq.1.val = 0 ∧
      w.Dialog.nextCSeq.1.val ≠ 4294967295 + 1) ∧
    (∃ w, sampleUA.NewClientSession lastSeqParams = .ok w ∧
      w.Dialog.lastCSeqNo.val = 4294967295 ∧ w.Dialog.nextCSeq.1.val = 0 ∧
      w.Dialog.nextCSeq.1.val ≠ 4294967295 + 1) :=
  ⟨⟨_, rfl, by decide, by decide, by decide⟩, ⟨_, rfl, by decide, by decide, by decide⟩⟩

/-- C4, amended: rehydration round trip. For a present initiating request, an
id, a state and a sequence number n (a `uint32`), both `NewServerSession` and
`NewClientSession` return a wrapper with that id, that request and response,
that state when the state is read, and sequence counter n, so that the next
subsequent request is stamped n + 1 modulo 2^32: n + 1 for every n below
4294967295, and 0 at 4294967295. -/
theorem rehydration_round_trip (ua : DialogUA) (req : Request) (resp : Option Response)
    (d : String) (s : DialogState) (n : Uint32) :
    (∃ w, ua.NewServerSession ⟨some req, resp, s, n, d⟩ = .ok w ∧
      w.Dialog.ID = d ∧ w.Dialog.InviteRequest = some req ∧ w.Dialog.InviteResponse = resp ∧
      w.Dialog.LoadState = s ∧ w.Dialog.lastCSeqNo = n ∧
      w.Dialog.nextCSeq.1.val = (n.val + 1) % 4294967296 ∧
      (n.val < 4294967295 → w.Dialog.nextCSeq.1.val = n.val + 1) ∧
      (n.val = 4294967295 → w.Dialog.nextCSeq.1.val = 0)) ∧
    (∃ w, ua.NewClientSession ⟨some req, resp, s, n, d⟩ = .ok w ∧
      w.Dialog.ID = d ∧ w.Dialog.InviteRequest = some req ∧ w.Dialog.InviteResponse = resp ∧
      w.Dialog.LoadState = s ∧ w.Dialog.lastCSeqNo = n ∧
      w.Dialog.nextCSeq.1.val = (n.val + 1) % 4294967296 ∧
      (n.val < 4294967295 → w.Dialog.nextCSeq.1.val = n.val + 1) ∧
      (n.val = 4294967295 → w.Dialog.nextCSeq.1.val = 0)) := by
  have hLt : n.val < 4294967295 → (n.val + 1) % 4294967296 = n.val + 1 :=
    fun h => Nat.mod_eq_of_lt (by omega)
  have hMax : n.val = 4294967295 → (n.val + 1) % 4294967296 = 0 :=
    fun h => by rw [h]
  exact ⟨⟨_, rfl, rfl, rfl, rfl, rfl, rfl, rfl, hLt, hMax⟩,
    ⟨_, rfl, rfl, rfl, rfl, rfl, rfl, rfl, hLt, hMax⟩⟩

/-- The round trip of C4 at id "abc", state Established, sequence number 4: the
state read is Established and the next request is stamped 5. -/
theorem rehydration_round_trip_witness :
    (∃ w, sampleUA.NewServerSession sampleParams = .ok w ∧
      w.Dialog.ID = "abc" ∧ w.Dialog.LoadState = DialogState.Established ∧
      w.Dialog.lastCSeqNo = 4 ∧ w.Dialog.nextCSeq.1.val = 5) ∧
    (∃ w, sampleUA.NewClientSession sampleParams = .ok w ∧
      w.Dialog.ID = "abc" ∧ w.Dialog.LoadState = DialogState.Established ∧
      w.Dialog.lastCSeqNo = 4 ∧ w.Dialog.nextCSeq.1.val = 5) :=
  have h := rehydration_round_trip sampleUA validInvite none "abc" DialogState.Established 4
  ⟨h.1.elim fun w hw => ⟨w, hw.1, hw.2.1, hw.2.2.2.2.1, hw.2.2.2.2.2.1,
      hw.2.2.2.2.2.2.2.1 (by decide)⟩,
   h.2.elim fun w hw => ⟨w, hw.1, hw.2.1, hw.2.2.2.2.1, hw.2.2.2.2.2.1,
      hw.2.2.2.2.2.2.2.1 (by decide)⟩⟩

/-- C5: `NewServerSession` and `NewClientSession` return an error exactly when
the initiating request of the parameters is absent; with a request present they
return a wrapper whatever the response, the state, the sequence number and the
id are. -/
theorem new_session_error_iff (ua : DialogUA) (params : DialogSessionParams) :
    ((∃ e, ua.NewServerSession params = .error e) ↔ params.InviteReq = none) ∧
    ((∃ e, ua.NewClientSession params = .error e) ↔ params.InviteReq = none) ∧
    ((∃ w, ua.NewServerSession params = .ok w) ↔ params.InviteReq ≠ none) ∧
    ((∃ w, ua.NewClientSession params = .ok w) ↔ params.InviteReq ≠ none) := by
  obtain ⟨rq, rs, st, n, d⟩ := params
  cases rq <;> simp [DialogUA.NewServerSession, DialogUA.NewClientSession]

/-- C5 at parameters with no response, state Ended, sequence number 0 and an
empty id: accepted with a request, refused without one. -/
theorem new_session_error_iff_witness :
    (∃ w, sampleUA.NewServerSession ⟨some validInvite, none, .Ended, 0, ""⟩ = .ok w) ∧
    (∃ e, sampleUA.NewClientSession ⟨none, none, .Ended, 0, ""⟩ = .error e) :=
  ⟨(new_session_error_iff sampleUA ⟨some validInvite, none, .Ended, 0, ""⟩).2.2.1.mpr
      (by simp),
   (new_session_error_iff sampleUA ⟨none, none, .Ended, 0, ""⟩).2.1.mpr rfl⟩

/-- C6: the request that `WriteInvite` hands to the request-sending collaborator
carries a Contact header; a request that already had one is handed over
unchanged, and a request that had none gets exactly one header appended, the
agent's `ContactHDR`, with nothing else changed. -/
theorem WriteInvite_contact (c : DialogUA) (ctx : Context) (req : Request)
    (opts : List ClientRequestOption) :
    (c.WriteInvite ctx req opts).sent.Contact ≠ none ∧
    (req.Contact ≠ none → (c.WriteInvite ctx req opts).sent = req) ∧
    (req.Contact = none →
      (c.WriteInvite ctx req opts).sent.headers = req.headers ++ [.Contact c.ContactHDR] ∧
      (c.WriteInvite ctx req opts).sent.Contact = some c.ContactHDR ∧
      (c.WriteInvite ctx req opts).sent.Method = req.Method ∧
      (c.WriteInvite ctx req opts).sent.Recipient = req.Recipient ∧
      (c.WriteInvite ctx req opts).sent.body = req.body) := by
  rw [WriteInvite_sent]
  by_cases h : req.Contact = none
  · have hc := Request.Contact_AppendHeader req c.ContactHDR h
    rw [if_pos h]
    exact ⟨by rw [hc]; simp, fun hn => absurd h hn, fun _ => ⟨rfl, hc, rfl, rfl, rfl⟩⟩
  · rw [if_neg h]
    exact ⟨h, fun _ => rfl, fun hn => absurd hn h⟩

/-- C6 on a request with no Contact header and on one with a Contact header. -/
theorem WriteInvite_contact_witness :
    (sampleUA.WriteInvite ⟨false⟩ inviteNoContact []).sent.headers
      = inviteNoContact.headers ++ [.Contact sampleContact] ∧
    (sampleUA.WriteInvite ⟨false⟩ validInvite []).sent = validInvite :=
  ⟨((WriteInvite_contact sampleUA ⟨false⟩ inviteNoContact []).2.2 (by decide)).1,
   (WriteInvite_contact sampleUA ⟨false⟩ validInvite []).2.1 (by decide)⟩

/-- C7: `WriteInvite` returns a session exactly when the collaborator returns a
transaction for the request handed to it. When the collaborator fails,
`WriteInvite` returns that error and no session; when it returns a transaction,
the session is in state Initial, is bound to that transaction, has the sent
request as its initiating request, no initiating response and an empty id. -/
theorem WriteInvite_session_iff (c : DialogUA) (ctx : Context) (req : Request)
    (opts : List ClientRequestOption) :
    ((∃ s, (c.WriteInvite ctx req opts).out = .ok s) ↔
      ∃ tx, c.Client.TransactionRequest ctx (c.WriteInvite ctx req opts).sent opts = .ok tx) ∧
    (∀ err, c.Client.TransactionRequest ctx (c.WriteInvite ctx req opts).sent opts
        = .error err → (c.WriteInvite ctx req opts).out = .error err) ∧
    (∀ tx, c.Client.TransactionRequest ctx (c.WriteInvite ctx req opts).sent opts = .ok tx →
      ∃ s, (c.WriteInvite ctx req opts).out = .ok s ∧
        s.Dialog.LoadState = DialogState.Initial ∧ s.inviteTx = tx ∧
        s.Dialog.InviteRequest = some (c.WriteInvite ctx req opts).sent ∧
        s.Dialog.InviteResponse = none ∧ s.Dialog.ID = "") := by
  have hOut := WriteInvite_out c ctx req opts
  cases hTx : c.Client.TransactionRequest ctx (c.WriteInvite ctx req opts).sent opts with
  | error err =>
    rw [hTx] at hOut
    simp [hOut]
  | ok tx =>
    rw [hTx] at hOut
    simp [hOut, Dialog.LoadState]

/-- C7 with a collaborator that fails and with one that returns a transaction. -/
theorem WriteInvite_session_iff_witness :
    (failingUA.WriteInvite ⟨true⟩ validInvite []).out
      = .error (.transactionRequest "context canceled") ∧
    (∃ s, (sampleUA.WriteInvite ⟨false⟩ validInvite []).out = .ok s ∧
      s.Dialog.LoadState = DialogState.Initial ∧ s.inviteTx = .clientTx "z9hG4bK.1" ∧
      s.Dialog.InviteRequest = some (sampleUA.WriteInvite ⟨false⟩ validInvite []).sent ∧
      s.Dialog.InviteResponse = none ∧ s.Dialog.ID = "") :=
  ⟨(WriteInvite_session_iff failingUA ⟨true⟩ validInvite []).2.1 _ rfl,
   (WriteInvite_session_iff sampleUA ⟨false⟩ validInvite []).2.2 _ rfl⟩

/-- C8 as stated fails: given a live handle of another implementation of the
interface, `ReadInvite` succeeds and registers nothing, and the termination of
that handle leaves the returned session in state Initial. -/
theorem ReadInvite_custom_tx_not_watched :
    (sampleUA.ReadInvite sampleMaker (.ok "t1") validInvite customTx).out
      = .ok acceptedCustomSession ∧
    (sampleUA.ReadInvite sampleMaker (.ok "t1") validInvite customTx).tx = customTx ∧
    ((sampleUA.ReadInvite sampleMaker (.ok "t1") validInvite customTx).tx.terminate
      acceptedCustomSession.Dialog).LoadState = DialogState.Initial ∧
    ((sampleUA.ReadInvite sampleMaker (.ok "t1") validInvite customTx).tx.terminate
      acceptedCustomSession.Dialog).LoadState ≠ DialogStateEnded :=
  ⟨rfl, rfl, by decide, by decide⟩

/-- C8, amended: on a successful call whose handle is a `*sip.ServerTx`, the
termination callback is registered on that transaction after the callbacks it
already had, the session is bound to it, and when the handle had no other
callback its termination moves the returned session to Ended; on a successful
call with a handle of any other implementation nothing is registered and the
termination of the handle leaves the session as it is. -/
theorem ReadInvite_registers_on_serverTx (c : DialogUA) (mk : DialogIDMaker)
    (newV4 : Except String String) (req : Request) (tx : ServerTransaction)
    (s : DialogServerSession) (h : (c.ReadInvite mk newV4 req tx).out = .ok s) :
    (∀ stx, tx = .serverTx stx →
      (c.ReadInvite mk newV4 req tx).tx = .serverTx (stx.OnTerminate terminationCallback) ∧
      s.inviteTx = .serverTx (stx.OnTerminate terminationCallback) ∧
      (∀ d, (c.ReadInvite mk newV4 req tx).tx.terminate d
        = terminationCallback stx.key (tx.terminate d)) ∧
      (stx.onTerminate = [] →
        ((c.ReadInvite mk newV4 req tx).tx.terminate s.Dialog).LoadState
          = DialogStateEnded)) ∧
    ((∀ stx, tx ≠ .serverTx stx) →
      (c.ReadInvite mk newV4 req tx).tx = tx ∧ s.inviteTx = tx ∧
      ∀ d, (c.ReadInvite mk newV4 req tx).tx.terminate d = d) := by
  rcases ReadInvite_paths c mk newV4 req tx with
    ⟨_, hR⟩ | ⟨_, _, _, hR⟩ | ⟨_, _, _, _, hR⟩ | ⟨_, _, _, _, _, _, hR⟩ |
    ⟨_, t, r1, id, _, _, _, hR⟩
  · rw [hR] at h; cases h
  · rw [hR] at h; cases h
  · rw [hR] at h; cases h
  · rw [hR] at h; cases h
  · rcases hR with ⟨stx, hTx, hR⟩ | ⟨hNot, hR⟩
    · rw [hR] at h ⊢
      simp only [Outcome.ok.injEq] at h
      subst h
      subst hTx
      refine ⟨?_, fun hNot => absurd rfl (hNot stx)⟩
      intro stx1 hEq
      cases hEq
      refine ⟨rfl, rfl, ?_, ?_⟩
      · intro d
        simp [ServerTransaction.terminate, ServerTx.OnTerminate, List.foldl_append]
      · intro hNil
        simp [ServerTransaction.terminate, ServerTx.OnTerminate, hNil, terminationCallback,
          Dialog.LoadState, Dialog.setState, DialogState.lt_def, DialogState.rank]
    · rw [hR] at h ⊢
      simp only [Outcome.ok.injEq] at h
      subst h
      refine ⟨fun stx hEq => absurd hEq (hNot stx), fun _ => ⟨rfl, rfl, ?_⟩⟩
      intro d
      cases tx with
      | serverTx stx => exact absurd rfl (hNot stx)
      | noOp => rfl
      | custom name => rfl

/-- C8, amended, on a fresh `*sip.ServerTx`: the callback is the one registered
and the transaction's termination moves the returned session to Ended. -/
theorem ReadInvite_registers_on_serverTx_witness :
    (sampleUA.ReadInvite sampleMaker (.ok "t1") validInvite freshServerTx).out
      = .ok acceptedSession ∧
    ((sampleUA.ReadInvite sampleMaker (.ok "t1") validInvite freshServerTx).tx.terminate
      acceptedSession.Dialog).LoadState = DialogStateEnded :=
  ⟨rfl,
   ((ReadInvite_registers_on_serverTx sampleUA sampleMaker (.ok "t1") validInvite
      freshServerTx acceptedSession rfl).1 ⟨"z9hG4bK.7", []⟩ rfl).2.2.2 rfl⟩

/-- C9 as stated fails: on a request with no Call-ID header `ReadInvite` returns
an error, and the request it leaves behind is not the one received: its To
header, which had no tag, carries the generated tag. -/
theorem ReadInvite_error_after_tag_written :
    (sampleUA.ReadInvite sampleMaker (.ok "t1") inviteNoCallID freshServerTx).out.isError
      = true ∧
    inviteNoCallID.toTag = none ∧
    (sampleUA.ReadInvite sampleMaker (.ok "t1") inviteNoCallID freshServerTx).req.toTag
      = some "t1" ∧
    (sampleUA.ReadInvite sampleMaker (.ok "t1") inviteNoCallID freshServerTx).req
      ≠ inviteNoCallID := by
  decide

/-- C9, amended: `ReadInvite` checks only the Contact header before it generates
the token and writes the tag. When it returns an error, the request is left as
it was received if the Contact header is missing (the error is then
`ErrDialogInviteNoContact`) or the token generation failed; in every other case
the error is returned after line 72, and the request's To header carries the
generated tag. -/
theorem ReadInvite_error_request (c : DialogUA) (mk : DialogIDMaker)
    (newV4 : Except String String) (req : Request) (tx : ServerTransaction) (e : Error)
    (h : (c.ReadInvite mk newV4 req tx).out = .error e) :
    (req.Contact = none →
      e = .ErrDialogInviteNoContact ∧ (c.ReadInvite mk newV4 req tx).req = req) ∧
    (∀ cause, req.Contact ≠ none → newV4 = .error cause →
      e = .generatingToTagFailed cause ∧ (c.ReadInvite mk newV4 req tx).req = req) ∧
    (∀ t, req.Contact ≠ none → newV4 = .ok t →
      req.setToTag t = some (c.ReadInvite mk newV4 req tx).req ∧
      (c.ReadInvite mk newV4 req tx).req.toTag = some t) := by
  rcases ReadInvite_paths c mk newV4 req tx with
    ⟨hC, hR⟩ | ⟨hC, cause, hV, hR⟩ | ⟨_, _, _, _, hR⟩ | ⟨hC, t, r1, e1, hV, hSet, hR⟩ |
    ⟨_, t, r1, id, _, _, _, hR⟩
  · rw [hR] at h ⊢
    simp only [Outcome.error.injEq] at h
    subst h
    exact ⟨fun _ => ⟨rfl, rfl⟩, fun _ hne => absurd hC hne, fun _ hne => absurd hC hne⟩
  · rw [hR] at h ⊢
    simp only [Outcome.error.injEq] at h
    subst h
    subst hV
    refine ⟨fun hn => absurd hn hC, ?_, ?_⟩
    · intro cause1 _ hEq
      cases hEq
      exact ⟨rfl, rfl⟩
    · intro t _ hEq
      cases hEq
  · rw [hR] at h; cases h
  · rw [hR] at h ⊢
    subst hV
    refine ⟨fun hn => absurd hn hC, ?_, ?_⟩
    · intro cause _ hEq
      cases hEq
    · intro t1 _ hEq
      cases hEq
      exact ⟨hSet, Request.toTag_of_setToTag req r1 t hSet⟩
  · rcases hR with ⟨_, _, hR⟩ | ⟨_, hR⟩ <;> (rw [hR] at h; cases h)

/-- C9, amended, on a request with no Call-ID header and token "t1": the error
is returned with the tag "t1" in the To header. -/
theorem ReadInvite_error_request_witness :
    (sampleUA.ReadInvite sampleMaker (.ok "t1") inviteNoCallID freshServerTx).req.toTag
      = some "t1" :=
  ((ReadInvite_error_request sampleUA sampleMaker (.ok "t1") inviteNoCallID freshServerTx
      (.dialogID "missing Call-ID header") rfl).2.2 "t1" (by decide) rfl).2

/-- C10, at the input where the code departs from it: a request with Call-ID,
From, CSeq and Contact headers and no To header. `ReadInvite` returns neither a
session nor an error there; line 72 dereferences the absent To header and the
call panics. -/
theorem ReadInvite_without_to_panics :
    inviteNoTo.Contact ≠ none ∧ inviteNoTo.To = none ∧
    (sampleUA.ReadInvite sampleMaker (.ok "t1") inviteNoTo freshServerTx).out.isOk = false ∧
    (sampleUA.ReadInvite sampleMaker (.ok "t1") inviteNoTo freshServerTx).out.isError
      = false ∧
    (sampleUA.ReadInvite sampleMaker (.ok "t1") inviteNoTo freshServerTx).out.isPanic
      = true ∧
    (sampleUA.ReadInvite sampleMaker (.ok "t1") inviteNoTo customTx).out.isPanic = true := by
  decide

end Sipgo
